import Mathlib

/-!
Verification development for the rtsp_viewer repository.

The repository contains two GUI variants of the same RTSP viewer:
  * `src/main.cpp`      — GTK4 + `waylandsink`, software decoder `avdec_h264`
                          (modelled below in namespace `Wayland`);
  * `src/unnamed/part_000` (first unit) — GTK4 + `gtk4paintablesink`,
                          hardware decoder `nvh264dec`
                          (modelled below in namespace `Paintable`).

Each variant is shallowly embedded as pure state-transition functions over an
`AppData` record mirroring the C++ `AppData` struct.  External GStreamer
behaviour (element-factory availability, static-link success, the synchronous
result of `gst_element_set_state(PLAYING)`) is abstracted into an `Env`
record; pipeline-object allocation is modelled by a fresh-id counter
(`nextId`), so object identity ("is this the same graph as before?") is
observable.  GTK widget construction and the paintable/video-overlay display
surface are not modelled: no claim refers to them.  Log output (`std::cout` /
`std::cerr`) is modelled as an appended list of lines.
-/

/-- GStreamer element states as used by the program (`GST_STATE_*` and the
`VOID_PENDING` value that can appear in state-changed messages). -/
inductive GState
  | null
  | ready
  | paused
  | playing
  | voidPending
  deriving DecidableEq, Repr

/-- Rendering of `gst_element_state_get_name`. -/
def stateName : GState → String
  | GState.null => "NULL"
  | GState.ready => "READY"
  | GState.paused => "PAUSED"
  | GState.playing => "PLAYING"
  | GState.voidPending => "VOID_PENDING"

/-- The pipeline object owned through `AppData::pipeline`.  `id` models the
object identity produced by `gst_pipeline_new` (a fresh allocation each
time); `depayLinked` models whether the depayloader sink pad is linked
(`gst_pad_is_linked` on the static pad of `rtph264depay`). -/
structure Pipeline where
  id : Nat
  state : GState
  depayLinked : Bool
  deriving DecidableEq, Repr

/-- Environment: results of the external GStreamer calls that the program
branches on.  `makeOk f` is whether `gst_element_factory_make f _` returns a
non-null element; `pipelineNewOk` whether `gst_pipeline_new` does;
`linkManyOk` the result of `gst_element_link_many`; `setPlayingRet` is
`false` exactly when `gst_element_set_state(_, GST_STATE_PLAYING)` returns
`GST_STATE_CHANGE_FAILURE`. -/
structure Env where
  makeOk : String → Bool
  pipelineNewOk : Bool
  linkManyOk : Bool
  setPlayingRet : Bool

/-- The source object of a bus message (`GST_MESSAGE_SRC`): either the
pipeline object with its allocation id, or a child element. -/
inductive MsgSrc
  | pipelineObj (id : Nat)
  | childObj (name : String)
  deriving DecidableEq, Repr

/-- A parsed `GError` as read by `gst_message_parse_error` /
`gst_message_parse_warning`. -/
structure ErrInfo where
  domain : Int
  code : Int
  message : String
  deriving DecidableEq, Repr

/-- Bus messages the two `bus_cb` dispatchers branch on.  `error` and
`warning` carry the possibly-null `GError*` and debug string. -/
inductive BusMsg
  | error (src : MsgSrc) (err : Option ErrInfo) (dbg : Option String)
  | eos (src : MsgSrc)
  | stateChanged (src : MsgSrc) (old new pending : GState)
  | warning (src : MsgSrc) (err : Option ErrInfo) (dbg : Option String)
  | other
  deriving DecidableEq, Repr

/-- `GST_MESSAGE_SRC(msg) == GST_OBJECT(app->pipeline)`: true exactly when
the message source is the pipeline object currently owned by the app. -/
def msgSrcIsPipeline (o : Option Pipeline) (s : MsgSrc) : Bool :=
  match s, o with
  | MsgSrc.pipelineObj i, some p => i == p.id
  | _, _ => false

/-- The `[STATE]` log line both variants print for a state-changed message. -/
def stateLine (o n pd : GState) : String :=
  "[STATE] " ++ stateName o ++ " -> " ++ stateName n ++
    " [pending: " ++ stateName pd ++ "]"

/- Element factory names used by the two variants. -/

def rtspsrcName : String := "rtspsrc"

def depayName : String := "rtph264depay"

def parseName : String := "h264parse"

def avdecName : String := "avdec_h264"

def nvdecName : String := "nvh264dec"

def convertName : String := "videoconvert"

def waylandsinkName : String := "waylandsink"

def gtk4sinkName : String := "gtk4paintablesink"

def videoSlash : String := "video/"

/-- Model of `g_str_has_prefix s pre` (does `s` start with `pre`?), defined
by character recursion so that concrete instances evaluate by `decide`. -/
def charsStart : List Char → List Char → Bool
  | _, [] => true
  | [], _ :: _ => false
  | c :: cs, d :: ds => c == d && charsStart cs ds

/-- String wrapper for `charsStart`: `startsWithStr s pre` is
`g_str_has_prefix(s, pre)`. -/
def startsWithStr (s pre : String) : Bool := charsStart s.data pre.data

def videoH264 : String := "video/x-h264"

def audioOpus : String := "audio/x-opus"

/-- Model of `std::stoi` on well-formed decimal input (the only inputs with
defined, non-throwing behaviour that the program relies on). -/
def stoiModel (s : String) : Int := (s.toInt?).getD 0

namespace Wayland

/-- `AppData` of `src/main.cpp` (the waylandsink variant), restricted to the
fields the lifecycle logic reads or writes.  `sinkSet` models whether
`app->sink` is non-null; `hasStartBtn`/`hasStopBtn` model non-nullness of the
button pointers that `start_stream`/`stop_stream` null-check; `nextId` is the
fresh-id allocator for pipeline objects; `log` collects printed lines. -/
structure AppData where
  pipeline : Option Pipeline := none
  sinkSet : Bool := false
  url : String := "rtsp://192.168.1.100:8554/quality_h264"
  latency_ms : Int := 10
  force_hw : Bool := false
  hasStartBtn : Bool := false
  hasStopBtn : Bool := false
  startSensitive : Bool := true
  stopSensitive : Bool := false
  nextId : Nat := 0
  log : List String := []
  deriving DecidableEq, Repr

def creatingMsg : String := "[INFO] Creating pipeline for URL: "

def elementsFailMsg : String := "[ERROR] One or more elements could not be created."

def linkFailMsg : String := "[ERROR] Elements could not be linked."

/-- `ensure_pipeline` of `src/main.cpp` (lines 147-212).  Returns the updated
state and the `gboolean` result.  Mirrors the source exactly: the pipeline
field is assigned before the element check, and on element-creation failure
the function returns `FALSE` **without** unreffing or nulling `app->pipeline`
(only the static-link failure path cleans up). -/
def ensure_pipeline (env : Env) (a : AppData) : AppData × Bool :=
  if a.pipeline.isSome then (a, true)
  else
    let a1 : AppData := { a with log := a.log ++ [creatingMsg ++ a.url] }
    let allOk : Bool := env.pipelineNewOk && env.makeOk rtspsrcName &&
      env.makeOk depayName && env.makeOk parseName && env.makeOk avdecName &&
      env.makeOk convertName && env.makeOk waylandsinkName
    let a2 : AppData := { a1 with
      pipeline := if env.pipelineNewOk then
          some { id := a.nextId, state := GState.null, depayLinked := false }
        else none,
      nextId := if env.pipelineNewOk then a.nextId + 1 else a.nextId,
      sinkSet := env.makeOk waylandsinkName }
    if allOk = false then
      ({ a2 with log := a2.log ++ [elementsFailMsg] }, false)
    else if env.linkManyOk = false then
      ({ a2 with pipeline := none, log := a2.log ++ [linkFailMsg] }, false)
    else
      (a2, true)

def cannotStartMsg : String := "[ERROR] Cannot start stream: pipeline create failed"

def settingPlayingMsg : String := "[INFO] Setting pipeline to PLAYING"

def fatalPlayingMsg : String := "[FATAL] Failed to set pipeline to PLAYING"

/-- `start_stream` of `src/main.cpp` (lines 216-234): ensure the pipeline,
request PLAYING; on synchronous failure drive the graph to Null, unref it and
null the pointer; on success update button sensitivity. -/
def start_stream (env : Env) (a0 : AppData) : AppData :=
  let r := ensure_pipeline env a0
  if r.2 = false then
    { r.1 with log := r.1.log ++ [cannotStartMsg] }
  else
    let a : AppData := { r.1 with log := r.1.log ++ [settingPlayingMsg] }
    if env.setPlayingRet = false then
      { a with pipeline := none, log := a.log ++ [fatalPlayingMsg] }
    else
      { a with
        pipeline := a.pipeline.map (fun p => { p with state := GState.playing }),
        startSensitive := if a.hasStartBtn then false else a.startSensitive,
        stopSensitive := if a.hasStopBtn then true else a.stopSensitive }

def stoppingMsg : String := "[INFO] Stopping pipeline"

/-- `stop_stream` of `src/main.cpp` (lines 236-247): early-return when no
pipeline is owned; otherwise drive to Null, unref, null the pointer and flip
button sensitivity. -/
def stop_stream (a : AppData) : AppData :=
  if a.pipeline.isSome then
    { a with
      pipeline := none,
      log := a.log ++ [stoppingMsg],
      startSensitive := if a.hasStartBtn then true else a.startSensitive,
      stopSensitive := if a.hasStopBtn then false else a.stopSensitive }
  else a

/-- `on_pad_added` of `src/main.cpp` (lines 51-67), as a function of the
pad's caps name, the caps-compatibility of a link attempt (`linkOk`) and the
owned pipeline.  Result: the updated pipeline and whether `gst_pad_link` was
invoked.  The source checks only the "video/" name prefix; it performs **no**
already-linked check and ignores the result of `gst_pad_link` (a duplicate
link attempt fails with `GST_PAD_LINK_WAS_LINKED` and changes nothing). -/
def on_pad_added (padType : String) (linkOk : Bool) (p : Pipeline) :
    Pipeline × Bool :=
  if (startsWithStr padType videoSlash) = false then (p, false)
  else if p.depayLinked = false && linkOk then
    ({ p with depayLinked := true }, true)
  else (p, true)

/-- `bus_cb` of `src/main.cpp` (lines 91-143).  Returns the updated state and
the `gboolean` watch-continuation result (always `TRUE`).  Error and EOS log
and invoke `stop_stream`; state-changed messages are logged
**unconditionally** (no message-source filter); warnings are only logged. -/
def bus_cb (a : AppData) (msg : BusMsg) : AppData × Bool :=
  match msg with
  | BusMsg.error _ err dbg =>
    let l1 : List String :=
      ["[ERROR] " ++ (match err with
        | some e => e.message
        | none => "unknown")]
    let l2 : List String := match dbg with
      | some d => ["[DEBUG] " ++ d]
      | none => []
    let l3 : List String := match err with
      | some e => ["[ERROR Details] Domain: " ++ toString e.domain ++
          ", Code: " ++ toString e.code]
      | none => []
    (stop_stream { a with log := a.log ++ l1 ++ l2 ++ l3 }, true)
  | BusMsg.eos _ =>
    (stop_stream { a with log := a.log ++ ["[INFO] EOS received"] }, true)
  | BusMsg.stateChanged _ o n pd =>
    ({ a with log := a.log ++ [stateLine o n pd] }, true)
  | BusMsg.warning _ err dbg =>
    let l1 : List String :=
      ["[WARNING] " ++ (match err with
        | some e => e.message
        | none => "unknown")]
    let l2 : List String := match dbg with
      | some d => ["[DEBUG] " ++ d]
      | none => []
    ({ a with log := a.log ++ l1 ++ l2 }, true)
  | BusMsg.other => (a, true)

/-- `on_command_line` of `src/main.cpp` (lines 306-325): argv[1] is the URL,
argv[2] the latency, argv[3] may set `force_hw` (value "hw" or "--hw"). -/
def on_command_line (args : List String) (a0 : AppData) : AppData :=
  let a1 : AppData :=
    if 1 < args.length then { a0 with url := args.getD 1 ("") } else a0
  let a2 : AppData :=
    if 2 < args.length then
      { a1 with latency_ms := stoiModel (args.getD 2 ("")) }
    else a1
  if 3 < args.length then
    (if args.getD 3 ("") == "hw" || args.getD 3 ("") == "--hw" then
      { a2 with force_hw := true }
    else a2)
  else a2

end Wayland

namespace Paintable

/-- `AppData` of `src/unnamed/part_000` (the gtk4paintablesink variant),
restricted to the fields the lifecycle logic reads or writes.  Same field
conventions as `Wayland.AppData`; the picture widget and paintable wiring
carry no lifecycle state and are not modelled. -/
structure AppData where
  pipeline : Option Pipeline := none
  sinkSet : Bool := false
  url : String := "rtsp://192.168.1.100:8554/quality_h264"
  latency_ms : Int := 5
  hasStartBtn : Bool := false
  hasStopBtn : Bool := false
  startSensitive : Bool := true
  stopSensitive : Bool := false
  nextId : Nat := 0
  log : List String := []
  deriving DecidableEq, Repr

def elementsFailMsg : String :=
  "[ERROR] Failed to create pipeline elements. Ensure gstreamer1.0-gtk4 is installed."

def linkFailMsg : String := "[ERROR] Failed to link downstream elements."

/-- `ensure_pipeline` of `src/unnamed/part_000` (lines 148-219).  Unlike the
waylandsink variant it uses the hardware decoder `nvh264dec`, and on
element-creation failure it unrefs the pipeline and resets the pointer to
null before returning `FALSE`. -/
def ensure_pipeline (env : Env) (b : AppData) : AppData × Bool :=
  if b.pipeline.isSome then (b, true)
  else
    let allOk : Bool := env.pipelineNewOk && env.makeOk rtspsrcName &&
      env.makeOk depayName && env.makeOk parseName && env.makeOk nvdecName &&
      env.makeOk convertName && env.makeOk gtk4sinkName
    let b2 : AppData := { b with
      pipeline := if env.pipelineNewOk then
          some { id := b.nextId, state := GState.null, depayLinked := false }
        else none,
      nextId := if env.pipelineNewOk then b.nextId + 1 else b.nextId,
      sinkSet := env.makeOk gtk4sinkName }
    if allOk = false then
      ({ b2 with pipeline := none, log := b2.log ++ [elementsFailMsg] }, false)
    else if env.linkManyOk = false then
      ({ b2 with pipeline := none, log := b2.log ++ [linkFailMsg] }, false)
    else
      (b2, true)

def playingFailMsg : String := "[ERROR] Unable to set pipeline to PLAYING."

/-- `start_stream` of `src/unnamed/part_000` (lines 237-260): ensure the
pipeline, request PLAYING; on synchronous failure drive the graph back to
Null but **keep owning it** (no unref, no pointer reset); on success update
button sensitivity. -/
def start_stream (env : Env) (b0 : AppData) : AppData :=
  let r := ensure_pipeline env b0
  if r.2 = false then r.1
  else if env.setPlayingRet = false then
    { r.1 with
      pipeline := r.1.pipeline.map (fun p => { p with state := GState.null }),
      log := r.1.log ++ [playingFailMsg] }
  else
    { r.1 with
      pipeline := r.1.pipeline.map (fun p => { p with state := GState.playing }),
      startSensitive := if r.1.hasStartBtn then false else r.1.startSensitive,
      stopSensitive := if r.1.hasStopBtn then true else r.1.stopSensitive }

/-- `stop_stream` of `src/unnamed/part_000` (lines 268-282): early-return
when no pipeline is owned; otherwise drive the owned graph to Null and flip
button sensitivity.  The pipeline is **not** unreffed and the pointer is
**not** reset — the stopped graph stays owned. -/
def stop_stream (b : AppData) : AppData :=
  if b.pipeline.isSome then
    { b with
      pipeline := b.pipeline.map (fun p => { p with state := GState.null }),
      startSensitive := if b.hasStartBtn then true else b.startSensitive,
      stopSensitive := if b.hasStopBtn then false else b.stopSensitive }
  else b

def warnPadMsg : String := "[WARN] Failed to link dynamic RTSP pad."

/-- `on_pad_added` of `src/unnamed/part_000` (lines 293-314), as a function
of the pad's caps name, the caps-compatibility of a link attempt (`linkOk`)
and the owned pipeline.  Result: updated pipeline, whether `gst_pad_link`
was invoked, and emitted log lines.  The source guards against an
already-linked sink pad (silent early return) but performs **no** media-type
inspection: `padType` is never read.  A failed link logs a warning. -/
def on_pad_added (padType : String) (linkOk : Bool) (p : Pipeline) :
    Pipeline × Bool × List String :=
  if p.depayLinked then (p, false, [])
  else if linkOk then ({ p with depayLinked := true }, true, [])
  else (p, true, [warnPadMsg])

/-- `bus_cb` of `src/unnamed/part_000` (lines 50-93).  Error and EOS log and
invoke `stop_stream`; state-changed messages are logged only when
`GST_MESSAGE_SRC(msg) == GST_OBJECT(app->pipeline)`; warnings fall through
the `default` case untouched. -/
def bus_cb (b : AppData) (msg : BusMsg) : AppData × Bool :=
  match msg with
  | BusMsg.error _ err dbg =>
    let l1 : List String :=
      ["[ERROR] " ++ (match err with
        | some e => e.message
        | none => "unknown")]
    let l2 : List String := match dbg with
      | some d => ["[DEBUG] " ++ d]
      | none => []
    (stop_stream { b with log := b.log ++ l1 ++ l2 }, true)
  | BusMsg.eos _ =>
    (stop_stream { b with log := b.log ++ ["[INFO] End of stream"] }, true)
  | BusMsg.stateChanged s o n pd =>
    if msgSrcIsPipeline b.pipeline s then
      ({ b with log := b.log ++ [stateLine o n pd] }, true)
    else (b, true)
  | BusMsg.warning _ _ _ => (b, true)
  | BusMsg.other => (b, true)

end Paintable

/- Concrete environments and states used by witnesses and counterexamples. -/

/-- Environment where every external GStreamer call succeeds. -/
def envAll : Env :=
  { makeOk := fun _ => true, pipelineNewOk := true, linkManyOk := true,
    setPlayingRet := true }

/-- Everything succeeds except the synchronous PLAYING state change. -/
def envNoPlay : Env := { envAll with setPlayingRet := false }

/-- Everything succeeds except constructing the hardware decoder
`nvh264dec`; in particular the sink constructs. -/
def envNoHW : Env := { envAll with makeOk := fun s => !(s == nvdecName) }

/-- Everything succeeds except constructing the software decoder
`avdec_h264` used by the waylandsink variant. -/
def envNoAvdec : Env := { envAll with makeOk := fun s => !(s == avdecName) }

/-- Initial waylandsink-variant state (all `AppData` defaults). -/
def wApp0 : Wayland.AppData := {}

/-- Waylandsink-variant state owning a playing pipeline (id 0 already
allocated, so `nextId = 1`), with both buttons present. -/
def wPlayingApp : Wayland.AppData :=
  { wApp0 with
    pipeline := some { id := 0, state := GState.playing, depayLinked := false },
    nextId := 1, hasStartBtn := true, hasStopBtn := true,
    startSensitive := false, stopSensitive := true }

/-- Waylandsink-variant idle state: no pipeline owned. -/
def wIdleApp : Wayland.AppData := { wApp0 with hasStartBtn := true, hasStopBtn := true }

/-- Initial gtk4paintablesink-variant state (all `AppData` defaults). -/
def pApp0 : Paintable.AppData := {}

/-- Gtk4paintablesink-variant state owning a playing pipeline (id 0 already
allocated, so `nextId = 1`), with both buttons present. -/
def pPlayingApp : Paintable.AppData :=
  { pApp0 with
    pipeline := some { id := 0, state := GState.playing, depayLinked := false },
    nextId := 1, hasStartBtn := true, hasStopBtn := true,
    startSensitive := false, stopSensitive := true }

/-- Gtk4paintablesink-variant idle state: no pipeline owned. -/
def pIdleApp : Paintable.AppData := { pApp0 with hasStartBtn := true, hasStopBtn := true }

/- ------------------------------------------------------------------ C1 -/

/-- Claim C1 counterexample: in the gtk4paintablesink variant
(`src/unnamed/part_000`), `stop_stream` keeps the pipeline, so the
`start; stop; start` sequence from the initial state ends with the **same**
pipeline object (allocation id 0) and the allocator still at 1: the second
`start_stream` reused the previously owned graph instead of performing a
fresh build, refuting the claim as stated. -/
theorem c1_counterexample :
    (Paintable.start_stream envAll
        (Paintable.stop_stream (Paintable.start_stream envAll pApp0))).pipeline
      = some { id := 0, state := GState.playing, depayLinked := false } ∧
    (Paintable.start_stream envAll
        (Paintable.stop_stream (Paintable.start_stream envAll pApp0))).nextId = 1 ∧
    (Paintable.start_stream envAll pApp0).pipeline
      = some { id := 0, state := GState.playing, depayLinked := false } := by
  decide

/-- Helper: any pipeline owned right after a waylandsink `ensure_pipeline`
run that started with no pipeline carries the allocator value `a.nextId` as
its id (it is a fresh allocation). -/
theorem wayland_ensure_built_id (env : Env) (a : Wayland.AppData)
    (h0 : a.pipeline = none) (q : Pipeline)
    (hq : ((Wayland.ensure_pipeline env a).1).pipeline = some q) :
    q.id = a.nextId := by
  simp only [Wayland.ensure_pipeline, h0] at hq
  simp only [Option.isSome_none, Bool.false_eq_true, if_false] at hq
  by_cases hpn : env.pipelineNewOk
  · simp only [hpn] at hq
    split at hq
    · simp at hq
      subst hq
      rfl
    · split at hq
      · simp at hq
      · simp at hq
        subst hq
        rfl
  · simp only [hpn] at hq
    split at hq
    · simp at hq
    · split at hq
      · simp at hq
      · simp at hq

/-- Claim C1 (amended): in the waylandsink variant (`src/main.cpp`),
`stop_stream` releases the graph, so a subsequent `ensure_pipeline` performs
a fresh build: whatever pipeline it ends up owning has an allocation id
different from the previously owned graph (in the gtk4paintablesink variant
`stop_stream` retains the graph and a subsequent start reuses it). -/
theorem c1_wayland_fresh_rebuild (env : Env) (a : Wayland.AppData)
    (p q : Pipeline) (hp : a.pipeline = some p) (hfresh : p.id < a.nextId)
    (hq : ((Wayland.ensure_pipeline env (Wayland.stop_stream a)).1).pipeline = some q) :
    (Wayland.stop_stream a).pipeline = none ∧ p.id ≠ q.id := by
  have hstop : (Wayland.stop_stream a).pipeline = none := by
    simp [Wayland.stop_stream, hp]
  refine ⟨hstop, ?_⟩
  have hnext : (Wayland.stop_stream a).nextId = a.nextId := by
    simp [Wayland.stop_stream, hp]
  have hid : q.id = a.nextId := by
    have h := wayland_ensure_built_id env (Wayland.stop_stream a) hstop q hq
    omega
  omega

/-- Claim C1 witness: applying the fresh-rebuild theorem at the concrete
playing state: after `stop_stream` the graph is released, and the graph a
subsequent build constructs has id 1 ≠ 0. -/
theorem c1_witness :
    (Wayland.stop_stream wPlayingApp).pipeline = none ∧ (0 : Nat) ≠ 1 :=
  c1_wayland_fresh_rebuild envAll wPlayingApp
    { id := 0, state := GState.playing, depayLinked := false }
    { id := 1, state := GState.null, depayLinked := false }
    (by decide) (by decide) (by decide)

/- ------------------------------------------------------------------ C2 -/

/-- Claim C2 counterexample: in the waylandsink variant (`src/main.cpp`), if
the decoder element `avdec_h264` cannot be constructed, `ensure_pipeline`
reports failure but leaves `app->pipeline` assigned to the partially
constructed graph: the controller does **not** return to the no-graph state,
refuting the claim as stated. -/
theorem c2_counterexample :
    (Wayland.ensure_pipeline envNoAvdec wApp0).2 = false ∧
    ((Wayland.ensure_pipeline envNoAvdec wApp0).1).pipeline
      = some { id := 0, state := GState.null, depayLinked := false } := by
  decide

/-- Helper: in the gtk4paintablesink variant, an element-construction
failure during an actual build makes `ensure_pipeline` report failure with
the pipeline pointer reset to null. -/
theorem paintable_ensure_elem_fail (env : Env) (b : Paintable.AppData)
    (h0 : b.pipeline = none)
    (hfail : (env.pipelineNewOk && env.makeOk rtspsrcName &&
        env.makeOk depayName && env.makeOk parseName && env.makeOk nvdecName &&
        env.makeOk convertName && env.makeOk gtk4sinkName) = false) :
    (Paintable.ensure_pipeline env b).2 = false ∧
    ((Paintable.ensure_pipeline env b).1).pipeline = none := by
  simp [Paintable.ensure_pipeline, h0, hfail]

/-- Claim C2 (amended): in the gtk4paintablesink variant
(`src/unnamed/part_000`), whenever any element constructor fails during a run
of `ensure_pipeline` that actually builds (no pipeline owned yet), the build
reports failure and the pipeline pointer is reset to null — no graph is
retained.  (The waylandsink variant reports failure but keeps the partially
constructed pipeline owned, per the counterexample.) -/
theorem c2_paintable_cleanup (env : Env) (b : Paintable.AppData)
    (h0 : b.pipeline = none)
    (hfail : (env.pipelineNewOk && env.makeOk rtspsrcName &&
        env.makeOk depayName && env.makeOk parseName && env.makeOk nvdecName &&
        env.makeOk convertName && env.makeOk gtk4sinkName) = false) :
    (Paintable.ensure_pipeline env b).2 = false ∧
    ((Paintable.ensure_pipeline env b).1).pipeline = none :=
  paintable_ensure_elem_fail env b h0 hfail

/-- Claim C2 witness: the cleanup theorem applied at the initial
gtk4paintablesink state in an environment whose decoder is unavailable. -/
theorem c2_witness :
    (Paintable.ensure_pipeline envNoHW pApp0).2 = false ∧
    ((Paintable.ensure_pipeline envNoHW pApp0).1).pipeline = none :=
  c2_paintable_cleanup envNoHW pApp0 (by decide) (by decide)

/- ------------------------------------------------------------------ C3 -/

/-- Claim C3 counterexample: in the gtk4paintablesink variant
(`src/unnamed/part_000`), a pad whose media type is `audio/x-opus` is **not**
ignored: with the depayloader input unlinked, `on_pad_added` invokes
`gst_pad_link` on it, and when the link fails it logs a warning — not an
error-free ignore, refuting the claim as stated. -/
theorem c3_counterexample :
    (Paintable.on_pad_added audioOpus false
        { id := 0, state := GState.playing, depayLinked := false }).2.1 = true ∧
    (Paintable.on_pad_added audioOpus false
        { id := 0, state := GState.playing, depayLinked := false }).2.2
      = [Paintable.warnPadMsg] := by
  decide

/-- Claim C3 (amended): only the waylandsink variant filters by media type —
its `on_pad_added` invokes `gst_pad_link` exactly when the pad's type string
has the prefix `"video/"`, and the depayloader input ends linked exactly
when it already was, or the pad is video-typed and the link is compatible.
The gtk4paintablesink variant performs no media-type inspection at all: its
`on_pad_added` is the same function for every pad type. -/
theorem c3_pad_filter :
    (∀ (t : String) (lk : Bool) (p : Pipeline),
      (Wayland.on_pad_added t lk p).2 = startsWithStr t videoSlash ∧
      ((Wayland.on_pad_added t lk p).1).depayLinked
        = (p.depayLinked || (startsWithStr t videoSlash && lk))) ∧
    (∀ (t1 t2 : String) (lk : Bool) (p : Pipeline),
      Paintable.on_pad_added t1 lk p = Paintable.on_pad_added t2 lk p) := by
  constructor
  · intro t lk p
    constructor
    · by_cases hv : startsWithStr t videoSlash <;>
        by_cases hl : p.depayLinked <;> by_cases hk : lk <;>
        simp [Wayland.on_pad_added, hv, hl, hk]
    · by_cases hv : startsWithStr t videoSlash <;>
        by_cases hl : p.depayLinked <;> by_cases hk : lk <;>
        simp [Wayland.on_pad_added, hv, hl, hk]
  · intro t1 t2 lk p
    rfl

/- ------------------------------------------------------------------ C4 -/

/-- Claim C4 counterexample: in the waylandsink variant (`src/main.cpp`),
`on_pad_added` has no already-linked guard: a video pad arriving while the
depayloader input is already linked still triggers a `gst_pad_link` call — a
duplicate link attempt — refuting the "no duplicate link attempt" part of
the claim (the attempt fails with `GST_PAD_LINK_WAS_LINKED`, whose result
the source ignores). -/
theorem c4_counterexample :
    (Wayland.on_pad_added videoH264 true
        { id := 0, state := GState.playing, depayLinked := true }).2 = true := by
  decide

/-- Claim C4 (amended): when the depayloader input is already linked, the
gtk4paintablesink variant's `on_pad_added` is a silent no-op (pipeline
unchanged, no link attempt, no log); the waylandsink variant leaves the
pipeline unchanged and logs nothing, but does issue a (failing, ignored)
duplicate `gst_pad_link` call for video-typed pads. -/
theorem c4_already_linked_noop (t : String) (lk : Bool) (p : Pipeline)
    (h : p.depayLinked = true) :
    Paintable.on_pad_added t lk p = (p, false, []) ∧
    (Wayland.on_pad_added t lk p).1 = p := by
  constructor
  · simp [Paintable.on_pad_added, h]
  · by_cases hv : startsWithStr t videoSlash <;>
      simp [Wayland.on_pad_added, hv, h]

/-- Claim C4 witness: the no-op theorem applied to a concrete already-linked
pipeline and a video-typed pad. -/
theorem c4_witness :
    Paintable.on_pad_added videoH264 true
        { id := 0, state := GState.playing, depayLinked := true }
      = ({ id := 0, state := GState.playing, depayLinked := true }, false, []) ∧
    (Wayland.on_pad_added videoH264 true
        { id := 0, state := GState.playing, depayLinked := true }).1
      = { id := 0, state := GState.playing, depayLinked := true } :=
  c4_already_linked_noop videoH264 true
    { id := 0, state := GState.playing, depayLinked := true } rfl

/- ------------------------------------------------------------------ C5 -/

/-- Claim C5 counterexample: with every element available except the
hardware decoder `nvh264dec` (in particular the sink constructs), the
gtk4paintablesink variant's `ensure_pipeline` fails and `start_stream`
builds no graph at all — construction fails solely due to missing hardware,
and no second tier is attempted, refuting the claim as stated. -/
theorem c5_counterexample :
    (Paintable.ensure_pipeline envNoHW pApp0).2 = false ∧
    (Paintable.start_stream envNoHW pApp0).pipeline = none := by
  decide

/-- Claim C5 (amended): if the hardware decoder `nvh264dec` is
unconstructible, the gtk4paintablesink variant's graph construction simply
fails — regardless of which sink candidates are available — and
`start_stream` leaves the controller with no graph.  There is no software or
auto-decode second tier and no sink priority list anywhere in the code. -/
theorem c5_no_fallback (env : Env) (b : Paintable.AppData)
    (h0 : b.pipeline = none) (hhw : env.makeOk nvdecName = false) :
    (Paintable.ensure_pipeline env b).2 = false ∧
    ((Paintable.ensure_pipeline env b).1).pipeline = none ∧
    (Paintable.start_stream env b).pipeline = none := by
  have hfail : (env.pipelineNewOk && env.makeOk rtspsrcName &&
      env.makeOk depayName && env.makeOk parseName && env.makeOk nvdecName &&
      env.makeOk convertName && env.makeOk gtk4sinkName) = false := by
    simp [hhw]
  obtain ⟨hres, hpipe⟩ := paintable_ensure_elem_fail env b h0 hfail
  refine ⟨hres, hpipe, ?_⟩
  simp [Paintable.start_stream, hres, hpipe]

/-- Claim C5 witness: the no-fallback theorem applied at the initial state in
the environment where only `nvh264dec` is missing and every sink candidate
constructs. -/
theorem c5_witness :
    (Paintable.ensure_pipeline envNoHW pIdleApp).2 = false ∧
    ((Paintable.ensure_pipeline envNoHW pIdleApp).1).pipeline = none ∧
    (Paintable.start_stream envNoHW pIdleApp).pipeline = none :=
  c5_no_fallback envNoHW pIdleApp (by decide) (by decide)

/- ------------------------------------------------------------------ C6 -/

/-- Claim C6 counterexample: in the gtk4paintablesink variant
(`src/unnamed/part_000`), `stop_stream` drives the graph to Null but keeps
owning it: from a playing state, after `stop_stream` the pipeline pointer is
still set — the final state is not "Idle (no owned graph)", refuting that
part of the claim. -/
theorem c6_counterexample :
    (Paintable.stop_stream pPlayingApp).pipeline
      = some { id := 0, state := GState.null, depayLinked := false } := by
  decide

/-- Claim C6 (amended): `stop_stream` is idempotent in both variants (two
consecutive calls equal one), and calling it with no pipeline owned is a
no-op.  After a stop the waylandsink variant owns no graph; the
gtk4paintablesink variant retains the stopped graph in the Null state (per
the counterexample), so only the waylandsink variant ends Idle. -/
theorem c6_stop_idempotent :
    (∀ a : Wayland.AppData,
      Wayland.stop_stream (Wayland.stop_stream a) = Wayland.stop_stream a) ∧
    (∀ a : Wayland.AppData, (Wayland.stop_stream a).pipeline = none) ∧
    (∀ b : Paintable.AppData,
      Paintable.stop_stream (Paintable.stop_stream b) = Paintable.stop_stream b) ∧
    (∀ a : Wayland.AppData, a.pipeline = none → Wayland.stop_stream a = a) ∧
    (∀ b : Paintable.AppData, b.pipeline = none → Paintable.stop_stream b = b) := by
  refine ⟨?_, ?_, ?_, ?_, ?_⟩
  · intro a
    cases hp : a.pipeline <;> simp [Wayland.stop_stream, hp]
  · intro a
    cases hp : a.pipeline <;> simp [Wayland.stop_stream, hp]
  · intro b
    cases hp : b.pipeline <;>
      by_cases hs : b.hasStartBtn <;> by_cases ht : b.hasStopBtn <;>
      simp [Paintable.stop_stream, hp, hs, ht]
  · intro a ha
    simp [Wayland.stop_stream, ha]
  · intro b hb
    simp [Paintable.stop_stream, hb]

/-- Claim C6 witness: the idempotence theorem applied at concrete states —
stop-after-stop from the playing waylandsink state equals a single stop, and
a stop in each idle state is the identity. -/
theorem c6_witness :
    Wayland.stop_stream (Wayland.stop_stream wPlayingApp)
      = Wayland.stop_stream wPlayingApp ∧
    Wayland.stop_stream wIdleApp = wIdleApp ∧
    Paintable.stop_stream pIdleApp = pIdleApp :=
  ⟨c6_stop_idempotent.1 wPlayingApp,
   c6_stop_idempotent.2.2.2.1 wIdleApp (by decide),
   c6_stop_idempotent.2.2.2.2 pIdleApp (by decide)⟩

/- ------------------------------------------------------------------ C7 -/

/-- The exact lines the waylandsink variant's `bus_cb` prints for an Error
message (`src/main.cpp` lines 96-113): the error message, the debug string
when present, and the domain/code details line when a `GError` is present. -/
def Wayland.errorLines (e : Option ErrInfo) (d : Option String) : List String :=
  ["[ERROR] " ++ (match e with
    | some ei => ei.message
    | none => "unknown")] ++
  (match d with
    | some ds => ["[DEBUG] " ++ ds]
    | none => []) ++
  (match e with
    | some ei => ["[ERROR Details] Domain: " ++ toString ei.domain ++
        ", Code: " ++ toString ei.code]
    | none => [])

/-- The exact lines the gtk4paintablesink variant's `bus_cb` prints for an
Error message (`src/unnamed/part_000` lines 55-65): the error message and
the debug string when present — no domain/code details line. -/
def Paintable.errorLines (e : Option ErrInfo) (d : Option String) : List String :=
  ["[ERROR] " ++ (match e with
    | some ei => ei.message
    | none => "unknown")] ++
  (match d with
    | some ds => ["[DEBUG] " ++ ds]
    | none => [])

/-- Claim C7 counterexample: in the gtk4paintablesink variant
(`src/unnamed/part_000`): (1) an EOS event invokes `stop_stream`, but the
graph ends driven to Null while **still owned** — the final state is not
Idle (no owned graph); and (2) a concrete Error event carrying domain 1 and
code 2 is logged as exactly the message and debug lines — the error's
domain and code are **not** logged.  Both refute the claim as stated. -/
theorem c7_counterexample :
    ((Paintable.bus_cb pPlayingApp (BusMsg.eos (MsgSrc.pipelineObj 0))).1).pipeline
      = some { id := 0, state := GState.null, depayLinked := false } ∧
    ((Paintable.bus_cb pPlayingApp
        (BusMsg.error (MsgSrc.pipelineObj 0)
          (some { domain := 1, code := 2, message := "net fail" })
          (some ("dbg")))).1).log
      = ["[ERROR] net fail", "[DEBUG] dbg"] := by
  decide

/-- Claim C7 (amended): for every Error event, `bus_cb` appends exactly the
variant's error lines to the log — message, optional debug, and the
domain/code details line in the waylandsink variant; only message and
optional debug in the gtk4paintablesink variant — and invokes
`stop_stream`; for every Eos event it appends exactly the variant's EOS info
line and invokes `stop_stream`.  The graph then ends released (pipeline
pointer null, Idle) in the waylandsink variant, but merely driven to the
Null state while still owned in the gtk4paintablesink variant. -/
theorem c7_bus_fault_stop :
    (∀ (a : Wayland.AppData) (s : MsgSrc) (e : Option ErrInfo) (d : Option String),
      Wayland.bus_cb a (BusMsg.error s e d)
        = (Wayland.stop_stream { a with log := a.log ++ Wayland.errorLines e d },
           true) ∧
      ((Wayland.bus_cb a (BusMsg.error s e d)).1).pipeline = none) ∧
    (∀ (a : Wayland.AppData) (s : MsgSrc),
      Wayland.bus_cb a (BusMsg.eos s)
        = (Wayland.stop_stream { a with log := a.log ++ ["[INFO] EOS received"] },
           true) ∧
      ((Wayland.bus_cb a (BusMsg.eos s)).1).pipeline = none) ∧
    (∀ (b : Paintable.AppData) (s : MsgSrc) (e : Option ErrInfo) (d : Option String),
      Paintable.bus_cb b (BusMsg.error s e d)
        = (Paintable.stop_stream { b with log := b.log ++ Paintable.errorLines e d },
           true) ∧
      ((Paintable.bus_cb b (BusMsg.error s e d)).1).pipeline
        = b.pipeline.map (fun p => { p with state := GState.null })) ∧
    (∀ (b : Paintable.AppData) (s : MsgSrc),
      Paintable.bus_cb b (BusMsg.eos s)
        = (Paintable.stop_stream { b with log := b.log ++ ["[INFO] End of stream"] },
           true) ∧
      ((Paintable.bus_cb b (BusMsg.eos s)).1).pipeline
        = b.pipeline.map (fun p => { p with state := GState.null })) := by
  refine ⟨?_, ?_, ?_, ?_⟩
  · intro a s e d
    constructor
    · cases e <;> cases d <;>
        simp [Wayland.bus_cb, Wayland.errorLines, List.append_assoc]
    · cases hp : a.pipeline <;> cases e <;> cases d <;>
        simp [Wayland.bus_cb, Wayland.stop_stream, hp]
  · intro a s
    constructor
    · rfl
    · cases hp : a.pipeline <;>
        simp [Wayland.bus_cb, Wayland.stop_stream, hp]
  · intro b s e d
    constructor
    · cases e <;> cases d <;>
        simp [Paintable.bus_cb, Paintable.errorLines, List.append_assoc]
    · cases hp : b.pipeline <;> cases e <;> cases d <;>
        simp [Paintable.bus_cb, Paintable.stop_stream, hp]
  · intro b s
    constructor
    · rfl
    · cases hp : b.pipeline <;>
        simp [Paintable.bus_cb, Paintable.stop_stream, hp]

/- ------------------------------------------------------------------ C8 -/

/-- Claim C8 counterexample: in the gtk4paintablesink variant
(`src/unnamed/part_000`), when the synchronous PLAYING request is rejected,
`start_stream` drives the graph back to Null but does **not** drop
ownership: the pipeline pointer stays set, refuting the "ownership of it is
dropped" part of the claim for that variant. -/
theorem c8_counterexample :
    (Paintable.start_stream envNoPlay pApp0).pipeline
      = some { id := 0, state := GState.null, depayLinked := false } := by
  decide

/-- Claim C8 (amended): when the PLAYING state-change request is rejected
synchronously after a successful build, the waylandsink variant forces full
teardown — the graph is driven to Null, unreffed, and the pointer nulled, so
no graph is owned; the gtk4paintablesink variant drives the owned graph to
Null but retains ownership of it. -/
theorem c8_reject_teardown (env : Env) (a : Wayland.AppData)
    (b : Paintable.AppData)
    (ha : (Wayland.ensure_pipeline env a).2 = true)
    (hb : (Paintable.ensure_pipeline env b).2 = true)
    (hs : env.setPlayingRet = false) :
    (Wayland.start_stream env a).pipeline = none ∧
    ∀ p : Pipeline,
      (Paintable.start_stream env b).pipeline = some p → p.state = GState.null := by
  constructor
  · simp [Wayland.start_stream, ha, hs]
  · intro p hp
    simp only [Paintable.start_stream, hb, hs] at hp
    simp at hp
    cases hq : ((Paintable.ensure_pipeline env b).1).pipeline <;> simp [hq] at hp
    subst hp
    rfl

/-- Claim C8 witness: the teardown theorem applied in the environment where
the build succeeds but the PLAYING request fails, from both initial
states. -/
theorem c8_witness :
    (Wayland.start_stream envNoPlay wApp0).pipeline = none ∧
    Pipeline.state { id := 0, state := GState.null, depayLinked := false }
      = GState.null :=
  ⟨(c8_reject_teardown envNoPlay wApp0 pApp0 (by decide) (by decide) (by decide)).1,
   (c8_reject_teardown envNoPlay wApp0 pApp0 (by decide) (by decide) (by decide)).2
     { id := 0, state := GState.null, depayLinked := false } (by decide)⟩

/- ------------------------------------------------------------------ C9 -/

/-- Claim C9 counterexample: in the waylandsink variant (`src/main.cpp`),
`bus_cb` logs a StateChanged event coming from a **child element** (here the
`rtspsrc` child), even though the message source is not the pipeline — there
is no source filter, refuting the "logs only if the source is the pipeline"
part of the claim for that variant. -/
theorem c9_counterexample :
    msgSrcIsPipeline wPlayingApp.pipeline (MsgSrc.childObj rtspsrcName) = false ∧
    ((Wayland.bus_cb wPlayingApp (BusMsg.stateChanged (MsgSrc.childObj rtspsrcName)
        GState.ready GState.paused GState.voidPending)).1).log
      = [stateLine GState.ready GState.paused GState.voidPending] := by
  decide

/-- Claim C9 (amended): neither variant performs a lifecycle transition on a
StateChanged event.  The gtk4paintablesink variant logs the transition
exactly when the message source is the owned pipeline object, filtering out
child-element echoes; the waylandsink variant logs every StateChanged event
unconditionally (per the counterexample). -/
theorem c9_state_changed_filter :
    (∀ (b : Paintable.AppData) (s : MsgSrc) (o n pd : GState),
      ((Paintable.bus_cb b (BusMsg.stateChanged s o n pd)).1).log
        = (if msgSrcIsPipeline b.pipeline s then b.log ++ [stateLine o n pd]
           else b.log)) ∧
    (∀ (b : Paintable.AppData) (s : MsgSrc) (o n pd : GState),
      ((Paintable.bus_cb b (BusMsg.stateChanged s o n pd)).1).pipeline
        = b.pipeline) ∧
    (∀ (a : Wayland.AppData) (s : MsgSrc) (o n pd : GState),
      ((Wayland.bus_cb a (BusMsg.stateChanged s o n pd)).1).pipeline = a.pipeline ∧
      ((Wayland.bus_cb a (BusMsg.stateChanged s o n pd)).1).log
        = a.log ++ [stateLine o n pd]) := by
  refine ⟨?_, ?_, ?_⟩
  · intro b s o n pd
    by_cases hs : msgSrcIsPipeline b.pipeline s <;> simp [Paintable.bus_cb, hs]
  · intro b s o n pd
    by_cases hs : msgSrcIsPipeline b.pipeline s <;> simp [Paintable.bus_cb, hs]
  · intro a s o n pd
    simp [Wayland.bus_cb]

/- ----------------------------------------------------------------- C10 -/

/-- Helper: `ensure_pipeline` of the waylandsink variant never reads
`force_hw`; the flag is carried through unchanged and nothing else
depends on it. -/
theorem wayland_ensure_hw_ghost (env : Env) (a : Wayland.AppData) (v : Bool) :
    Wayland.ensure_pipeline env { a with force_hw := v }
      = ({ (Wayland.ensure_pipeline env a).1 with force_hw := v },
         (Wayland.ensure_pipeline env a).2) := by
  cases hp : a.pipeline <;> simp [Wayland.ensure_pipeline, hp] <;>
    split_ifs <;> simp_all

/-- Helper: `stop_stream` of the waylandsink variant never reads
`force_hw`. -/
theorem wayland_stop_hw_ghost (a : Wayland.AppData) (v : Bool) :
    Wayland.stop_stream { a with force_hw := v }
      = { Wayland.stop_stream a with force_hw := v } := by
  cases hp : a.pipeline <;> simp [Wayland.stop_stream, hp]

/-- Claim C10: the decoder-preference flag of the waylandsink variant has no
effect.  `force_hw` is assigned by `on_command_line` but never read: every
operation of the variant commutes with arbitrarily overwriting the flag, so
two executions differing only in `force_hw` construct identical pipelines,
produce identical logs, and differ in no observable way; and two
command lines differing only in whether argv[3] is the hw flag yield states
identical up to the `force_hw` field itself. -/
theorem c10_force_hw_no_effect :
    (∀ (env : Env) (a : Wayland.AppData) (v : Bool),
      Wayland.ensure_pipeline env { a with force_hw := v }
        = ({ (Wayland.ensure_pipeline env a).1 with force_hw := v },
           (Wayland.ensure_pipeline env a).2)) ∧
    (∀ (env : Env) (a : Wayland.AppData) (v : Bool),
      Wayland.start_stream env { a with force_hw := v }
        = { Wayland.start_stream env a with force_hw := v }) ∧
    (∀ (a : Wayland.AppData) (v : Bool),
      Wayland.stop_stream { a with force_hw := v }
        = { Wayland.stop_stream a with force_hw := v }) ∧
    (∀ (a : Wayland.AppData) (v : Bool) (m : BusMsg),
      Wayland.bus_cb { a with force_hw := v } m
        = ({ (Wayland.bus_cb a m).1 with force_hw := v },
           (Wayland.bus_cb a m).2)) ∧
    (∀ (pn u l f1 f2 : String) (a : Wayland.AppData),
      { Wayland.on_command_line [pn, u, l, f1] a with force_hw := false }
        = { Wayland.on_command_line [pn, u, l, f2] a with force_hw := false }) := by
  refine ⟨wayland_ensure_hw_ghost, ?_, wayland_stop_hw_ghost, ?_, ?_⟩
  · intro env a v
    simp only [Wayland.start_stream, wayland_ensure_hw_ghost]
    split_ifs <;> rfl
  · intro a v m
    cases m with
    | error s e d =>
      exact congrArg (fun x => (x, true))
        (wayland_stop_hw_ghost
          { a with log := a.log ++
              ["[ERROR] " ++ (match e with
                | some ei => ei.message
                | none => "unknown")] ++
              (match d with
                | some ds => ["[DEBUG] " ++ ds]
                | none => []) ++
              (match e with
                | some ei => ["[ERROR Details] Domain: " ++ toString ei.domain ++
                    ", Code: " ++ toString ei.code]
                | none => []) } v)
    | eos s =>
      exact congrArg (fun x => (x, true))
        (wayland_stop_hw_ghost { a with log := a.log ++ ["[INFO] EOS received"] } v)
    | stateChanged s o n pd => rfl
    | warning s e d => rfl
    | other => rfl
  · intro pn u l f1 f2 a
    by_cases hf1 : (f1 == "hw" || f1 == "--hw") = true <;>
      by_cases hf2 : (f2 == "hw" || f2 == "--hw") = true <;>
        simp [Wayland.on_command_line, hf1, hf2]
